import Mathlib

/-!
Shallow embedding of the authentication and session lifecycle subsystem of
the hytale-docker repository: the token store (TokenStore.ts), the OAuth2
device-code client (OAuthClient.ts), the session manager and profile
manager (ProfileManager.ts / SessionManager.ts), and the coordinated
refresh command (AuthCli.refresh).

Modelling conventions:
- Epoch instants and durations are integers (the source uses
  Math.floor(Date.now() / 1000) and integer second counts).
- JavaScript truthiness tests on optional string fields ("if (data.error)",
  "if (!data.access_token)") are modelled by `truthy`: an absent field and
  the empty string are both falsy.
- Network responses are passed in as already-parsed values; an unparseable
  JSON body is an explicit constructor where the source catches the parse
  failure (session refresh).
- The on-disk token directory is a `Store` record with one optional slot
  per file; each save writes the whole record, each load reads it back.
  The OAuth file keeps the serialized snake_case shape the source writes,
  because loadOAuthTokens validates that shape on the way back in.
- Fallible TypeScript code (throw) is modelled with `Except`.
-/

deriving instance DecidableEq for Except

/-- Truthiness of an optional string field, as JavaScript evaluates it in a
boolean context: an absent field and the empty string are falsy. -/
def truthy (o : Option String) : Bool :=
  match o with
  | none => false
  | some s => s != ""

/-- Stored OAuth tokens (types/OAuth.ts, interface OAuthTokens). -/
structure OAuthTokens where
  accessToken : String
  refreshToken : String
  expiresAt : Int
  createdAt : Int
  deriving DecidableEq, Repr

/-- Stored session tokens (types/Sessions.ts, interface SessionTokens). -/
structure SessionTokens where
  sessionToken : String
  identityToken : String
  expiresAt : String
  expiresEpoch : Int
  createdAt : Int
  deriving DecidableEq, Repr

/-- A single game profile (types/Profiles.ts, interface Profile). -/
structure Profile where
  uuid : String
  username : String
  deriving DecidableEq, Repr

/-- Response from the profiles API (types/Profiles.ts, interface
ProfilesResponse). -/
structure ProfilesResponse where
  owner : String
  profiles : List Profile
  deriving DecidableEq, Repr

/-- Stored selected profile (types/Profiles.ts, interface SelectedProfile). -/
structure SelectedProfile where
  uuid : String
  username : String
  selectedAt : Int
  deriving DecidableEq, Repr

/-- Serialized shape written to oauth_tokens.json by
TokenStore.saveOAuthTokens: the camelCase record is re-keyed to snake_case
on the way out and validated on the way back in. -/
structure OAuthFile where
  access_token : String
  refresh_token : String
  expires_at : Int
  created_at : Int
  deriving DecidableEq, Repr

/-- The token directory: one optional slot per JSON file the TokenStore
manages (oauth_tokens.json, session_tokens.json, profiles.json,
selected_profile.json). `none` means the file is absent. The session,
profiles and selected-profile files are written with JSON.stringify of the
record itself and parsed back without validation, so they are modelled as
the records directly; the OAuth file is modelled in its serialized shape
because loadOAuthTokens validates its fields. -/
structure Store where
  oauthFile : Option OAuthFile
  sessionFile : Option SessionTokens
  profilesFile : Option ProfilesResponse
  selectedFile : Option SelectedProfile
  deriving DecidableEq, Repr

/-- An empty token directory: no file present. -/
def store0 : Store :=
  ⟨none, none, none, none⟩

/-- TokenStore.saveOAuthTokens: writes the four fields under snake_case
keys to oauth_tokens.json. -/
def TokenStore.saveOAuthTokens (st : Store) (t : OAuthTokens) : Store :=
  { st with oauthFile := some ⟨t.accessToken, t.refreshToken, t.expiresAt, t.createdAt⟩ }

/-- TokenStore.loadOAuthTokens: `none` when the file is absent; rejects a
file whose access_token or refresh_token is falsy (`!data.access_token ||
!data.refresh_token` in the source, which rejects the empty string).
The source also defaults expires_at to 0 and created_at to now when those
keys are absent; files written by saveOAuthTokens always carry them, so
that path does not arise here. -/
def TokenStore.loadOAuthTokens (st : Store) : Option OAuthTokens :=
  match st.oauthFile with
  | none => none
  | some f =>
    if f.access_token == "" || f.refresh_token == "" then none
    else some ⟨f.access_token, f.refresh_token, f.expires_at, f.created_at⟩

/-- TokenStore.saveSessionTokens: JSON.stringify of the whole record. -/
def TokenStore.saveSessionTokens (st : Store) (t : SessionTokens) : Store :=
  { st with sessionFile := some t }

/-- TokenStore.loadSessionTokens: `none` when absent, the parsed record
otherwise (no field validation in the source). -/
def TokenStore.loadSessionTokens (st : Store) : Option SessionTokens :=
  st.sessionFile

/-- TokenStore.saveProfiles. -/
def TokenStore.saveProfiles (st : Store) (p : ProfilesResponse) : Store :=
  { st with profilesFile := some p }

/-- TokenStore.loadProfiles. -/
def TokenStore.loadProfiles (st : Store) : Option ProfilesResponse :=
  st.profilesFile

/-- TokenStore.saveSelectedProfile. -/
def TokenStore.saveSelectedProfile (st : Store) (p : SelectedProfile) : Store :=
  { st with selectedFile := some p }

/-- TokenStore.loadSelectedProfile. -/
def TokenStore.loadSelectedProfile (st : Store) : Option SelectedProfile :=
  st.selectedFile

/-- TokenStore.clearAll: removes all four files. -/
def TokenStore.clearAll (_st : Store) : Store :=
  ⟨none, none, none, none⟩

/-- REFRESH_BUFFER, defined as 300 seconds in both OAuthClient.ts and
SessionManager.ts. -/
def REFRESH_BUFFER : Int := 300

/-- OAuthClient.needsRefresh: `Math.floor(Date.now() / 1000) >= expiresAt -
REFRESH_BUFFER`, with the current time passed explicitly. -/
def OAuthClient.needsRefresh (now expiresAt : Int) : Bool :=
  decide (now ≥ expiresAt - REFRESH_BUFFER)

/-- SessionManager.isExpiring: `Math.floor(Date.now() / 1000) >=
expiresEpoch - REFRESH_BUFFER`, with the current time passed explicitly. -/
def SessionManager.isExpiring (now expiresEpoch : Int) : Bool :=
  decide (now ≥ expiresEpoch - REFRESH_BUFFER)

/-- OAuth2 token-endpoint response body (types/OAuth.ts, interface
TokenResponse). All fields are optional in the source interface. -/
structure TokenResponse where
  access_token : Option String := none
  refresh_token : Option String := none
  expires_in : Option Int := none
  error : Option String := none
  deriving DecidableEq, Repr

/-- OAuthClient.createTokens: expiry is now + (expires_in ?? 3600). The
source reads access_token and refresh_token with non-null assertions; call
sites only reach it after checking them, so `getD ""` never fires there. -/
def OAuthClient.createTokens (now : Int) (data : TokenResponse) : OAuthTokens :=
  { accessToken := data.access_token.getD "",
    refreshToken := data.refresh_token.getD "",
    expiresAt := now + data.expires_in.getD 3600,
    createdAt := now }

/-- Errors thrown by OAuthClient.refreshToken. -/
inductive OAuthRefreshError where
  | refreshFailed (err : String)
  | noAccessToken
  deriving DecidableEq, Repr

/-- Token computation of OAuthClient.refreshToken, separated from the
store write: throws on a truthy error field or a falsy access_token;
otherwise builds the new tokens with `refresh_token: data.refresh_token ??
refreshToken` spliced into the response before createTokens. -/
def OAuthClient.refreshTokenResult (now : Int) (refreshToken : String)
    (data : TokenResponse) : Except OAuthRefreshError OAuthTokens :=
  if truthy data.error then .error (.refreshFailed (data.error.getD ""))
  else if !truthy data.access_token then .error .noAccessToken
  else .ok (OAuthClient.createTokens now
    { data with refresh_token := some (data.refresh_token.getD refreshToken) })

/-- OAuthClient.refreshToken: on success persists via saveOAuthTokens and
returns the new tokens. -/
def OAuthClient.refreshToken (now : Int) (st : Store) (refreshToken : String)
    (data : TokenResponse) : Except OAuthRefreshError (OAuthTokens × Store) :=
  match OAuthClient.refreshTokenResult now refreshToken data with
  | .error e => .error e
  | .ok tokens => .ok (tokens, TokenStore.saveOAuthTokens st tokens)

/-- HTTP reply for the profiles endpoint: response.ok, response.status and
the parsed body. -/
structure ProfilesHttp where
  ok : Bool
  status : Nat
  body : ProfilesResponse
  deriving DecidableEq, Repr

/-- OAuthClient.getProfiles: throws `Failed to get profiles: HTTP status`
on a non-2xx response, otherwise caches the profile set via saveProfiles
and returns it. The access token only feeds the Authorization header. -/
def OAuthClient.getProfiles (_accessToken : String) (st : Store)
    (resp : ProfilesHttp) : Except Nat (ProfilesResponse × Store) :=
  if !resp.ok then .error resp.status
  else .ok (resp.body, TokenStore.saveProfiles st resp.body)

/-- Device code polling state (types/OAuth.ts, interface DeviceCodeState).
expiresIn and interval are the server-provided or defaulted (900 / 5)
nonnegative second counts. -/
structure DeviceCodeState where
  deviceCode : String
  expiresIn : Nat
  interval : Nat
  deriving DecidableEq, Repr

/-- Outcome of OAuthClient.pollForToken. `elapsed` is the accumulated sleep
time in seconds, exactly the `elapsed` counter of the source. `outOfReplies`
is a model artifact: the finite reply script ended while the loop would
have polled again. -/
inductive PollOutcome where
  | issued (tokens : OAuthTokens) (elapsed : Nat) (st : Store)
  | expiredGrant (elapsed : Nat)
  | deviceCodeExpired
  | accessDenied
  | tokenError (err : String)
  | outOfReplies (elapsed : Nat)
  deriving DecidableEq, Repr

/-- Loop body of OAuthClient.pollForToken. The source loops `while (elapsed
< state.expiresIn)`, sleeps the current interval, adds it to elapsed, then
polls once; authorization_pending retries, slow_down adds 5 seconds to the
interval and retries, expired_token and access_denied fail terminally, any
other truthy error string fails with a token error; a reply with truthy
access_token and refresh_token persists the created tokens and returns
them; a reply with no error and missing tokens falls through to the next
iteration. The reply list is the successive parsed bodies the token
endpoint returns. -/
def OAuthClient.pollLoop (st : Store) (now : Int) (expiresIn : Nat)
    (replies : List TokenResponse) (elapsed interval : Nat) : PollOutcome :=
  if elapsed < expiresIn then
    match replies with
    | [] => .outOfReplies elapsed
    | data :: rest =>
      let elapsed2 := elapsed + interval
      if truthy data.error then
        if data.error == some "authorization_pending" then
          OAuthClient.pollLoop st now expiresIn rest elapsed2 interval
        else if data.error == some "slow_down" then
          OAuthClient.pollLoop st now expiresIn rest elapsed2 (interval + 5)
        else if data.error == some "expired_token" then .deviceCodeExpired
        else if data.error == some "access_denied" then .accessDenied
        else .tokenError (data.error.getD "")
      else if truthy data.access_token && truthy data.refresh_token then
        let tokens := OAuthClient.createTokens now data
        .issued tokens elapsed2 (TokenStore.saveOAuthTokens st tokens)
      else
        OAuthClient.pollLoop st now expiresIn rest elapsed2 interval
  else .expiredGrant elapsed

/-- OAuthClient.pollForToken: runs the poll loop from elapsed 0 with the
interval of the device grant state. -/
def OAuthClient.pollForToken (st : Store) (now : Int) (state : DeviceCodeState)
    (replies : List TokenResponse) : PollOutcome :=
  OAuthClient.pollLoop st now state.expiresIn replies 0 state.interval

/-- Session endpoint response body (types/Sessions.ts, interface
SessionResponse); only the fields the code inspects are kept, all optional. -/
structure SessionResponse where
  sessionToken : Option String := none
  identityToken : Option String := none
  expiresAt : Option String := none
  error : Option String := none
  deriving DecidableEq, Repr

/-- Body of the session refresh HTTP reply: either a parsed
SessionResponse, or `invalid` when response.json() throws. -/
inductive SessionBody where
  | parsed (data : SessionResponse)
  | invalid
  deriving DecidableEq, Repr

/-- HTTP reply for the session refresh endpoint: response.ok,
response.status and the body. -/
structure SessionHttp where
  ok : Bool
  status : Nat
  body : SessionBody
  deriving DecidableEq, Repr

/-- SessionManager.parseExpiry: `Date.parse(expiresAt)` then
`Math.floor(parsed / 1000)`, or now + 3600 when the parse yields NaN.
Date.parse is a platform primitive, abstracted as a function returning
the epoch milliseconds or `none` for NaN; floor division matches
Math.floor on the possibly negative quotient. -/
def SessionManager.parseExpiry (dateParse : String → Option Int) (now : Int)
    (expiresAt : String) : Int :=
  match dateParse expiresAt with
  | none => now + 3600
  | some ms => Int.fdiv ms 1000

/-- Session tokens built from a response carrying all three required
fields, as both SessionManager.create and SessionManager.refresh build
them. -/
def SessionManager.tokensFrom (dateParse : String → Option Int) (now : Int)
    (data : SessionResponse) : SessionTokens :=
  { sessionToken := data.sessionToken.getD "",
    identityToken := data.identityToken.getD "",
    expiresAt := data.expiresAt.getD "",
    expiresEpoch := SessionManager.parseExpiry dateParse now (data.expiresAt.getD ""),
    createdAt := now }

/-- Token computation of SessionManager.refresh, separated from the store
write: `null` on a non-2xx response, on an unparseable body, or when any of
sessionToken, identityToken, expiresAt is falsy; the built tokens
otherwise. -/
def SessionManager.refreshResult (dateParse : String → Option Int) (now : Int)
    (resp : SessionHttp) : Option SessionTokens :=
  if !resp.ok then none
  else
    match resp.body with
    | .invalid => none
    | .parsed data =>
      if truthy data.sessionToken && truthy data.identityToken && truthy data.expiresAt then
        some (SessionManager.tokensFrom dateParse now data)
      else none

/-- SessionManager.refresh: persists via saveSessionTokens exactly on the
success path, threading the store; the session token only feeds the
Authorization header. -/
def SessionManager.refresh (dateParse : String → Option Int) (now : Int)
    (_sessionToken : String) (st : Store) (resp : SessionHttp) :
    Option SessionTokens × Store :=
  match SessionManager.refreshResult dateParse now resp with
  | none => (none, st)
  | some tokens => (some tokens, TokenStore.saveSessionTokens st tokens)

/-- Errors thrown by SessionManager.create. -/
inductive SessionCreateError where
  | sessionError (err : String)
  | malformedResponse
  deriving DecidableEq, Repr

/-- Token computation of SessionManager.create, separated from the store
write: throws sessionError on a truthy error field, malformedResponse when
any required field is falsy, and builds the tokens otherwise. -/
def SessionManager.createResult (dateParse : String → Option Int) (now : Int)
    (data : SessionResponse) : Except SessionCreateError SessionTokens :=
  if truthy data.error then .error (.sessionError (data.error.getD ""))
  else if !(truthy data.sessionToken && truthy data.identityToken && truthy data.expiresAt) then
    .error .malformedResponse
  else .ok (SessionManager.tokensFrom dateParse now data)

/-- SessionManager.create: persists via saveSessionTokens on success. The
profile uuid only feeds the request body and the access token the
Authorization header. -/
def SessionManager.create (dateParse : String → Option Int) (now : Int)
    (_profileUuid _accessToken : String) (st : Store) (data : SessionResponse) :
    Except SessionCreateError (SessionTokens × Store) :=
  match SessionManager.createResult dateParse now data with
  | .error e => .error e
  | .ok tokens => .ok (tokens, TokenStore.saveSessionTokens st tokens)

/-- ProfileManager.build: records the selection instant. -/
def ProfileManager.build (now : Int) (uuid username : String) : SelectedProfile :=
  ⟨uuid, username, now⟩

/-- Tail of ProfileManager.select once no usable saved selection exists:
exactly one profile is auto-selected and persisted unconditionally; with
auto-select enabled the first profile is selected and persisted, except
that on an empty list `profiles.profiles[0]` is undefined and reading
`.uuid` from it throws a TypeError; otherwise the prompt is printed and
null is returned. -/
def ProfileManager.selectUnsaved (autoSelect : Bool) (now : Int) (st : Store)
    (profiles : ProfilesResponse) : Except String (Option SelectedProfile × Store) :=
  match profiles.profiles with
  | [p] =>
    let selected := ProfileManager.build now p.uuid p.username
    .ok (some selected, TokenStore.saveSelectedProfile st selected)
  | ps =>
    if autoSelect then
      match ps with
      | [] => .error "TypeError: cannot read properties of undefined"
      | p :: _ =>
        let selected := ProfileManager.build now p.uuid p.username
        .ok (some selected, TokenStore.saveSelectedProfile st selected)
    else .ok (none, st)

/-- ProfileManager.select: a saved selection whose uuid still appears in
the profile set is returned as-is without a store write; otherwise the
unsaved cases apply. -/
def ProfileManager.select (autoSelect : Bool) (now : Int) (st : Store)
    (profiles : ProfilesResponse) : Except String (Option SelectedProfile × Store) :=
  match TokenStore.loadSelectedProfile st with
  | some saved =>
    if profiles.profiles.any (fun p => p.uuid == saved.uuid) then .ok (some saved, st)
    else ProfileManager.selectUnsaved autoSelect now st profiles
  | none => ProfileManager.selectUnsaved autoSelect now st profiles

/-- Matches the source regular expression for an all-digit selector,
expressed over the character list of the string. -/
def isDigits (s : String) : Bool :=
  decide (s.data.length > 0) && s.data.all (fun c => c.isDigit)

/-- Decimal value of an all-digit string, as Number.parseInt(s, 10)
computes it on a string the digit regular expression accepted. -/
def digitsToNat (s : String) : Nat :=
  s.data.foldl (fun acc c => acc * 10 + (c.toNat - 48)) 0

/-- Errors thrown by ProfileManager.resolve, distinguished in the source
only by their message text: the invalid-ordinal message names the valid
range 1..count, the not-found message names the selector. -/
inductive SelectionError where
  | invalidIndex (count : Nat)
  | notFound (selector : String)
  deriving DecidableEq, Repr

/-- ProfileManager.resolve: an all-digit selector is a 1-based ordinal
(index = parseInt(selector) - 1, rejected when index < 0 or index >=
count); any other selector must equal the uuid of some profile. The inner
`none` arm is unreachable because the index was just bounds-checked. -/
def ProfileManager.resolve (now : Int) (profiles : ProfilesResponse)
    (selector : String) : Except SelectionError SelectedProfile :=
  if isDigits selector then
    let index : Int := (digitsToNat selector : Int) - 1
    if index < 0 ∨ index ≥ (profiles.profiles.length : Int) then
      .error (.invalidIndex profiles.profiles.length)
    else
      match profiles.profiles[index.toNat]? with
      | some p => .ok (ProfileManager.build now p.uuid p.username)
      | none => .error (.invalidIndex profiles.profiles.length)
  else
    match profiles.profiles.find? (fun p => p.uuid == selector) with
    | some p => .ok (ProfileManager.build now p.uuid p.username)
    | none => .error (.notFound selector)

/-- ProfileManager.setSelection: resolves, then always persists the result
via saveSelectedProfile before returning it. -/
def ProfileManager.setSelection (now : Int) (st : Store)
    (profiles : ProfilesResponse) (selector : String) :
    Except SelectionError (SelectedProfile × Store) :=
  match ProfileManager.resolve now profiles selector with
  | .error e => .error e
  | .ok selected => .ok (selected, TokenStore.saveSelectedProfile st selected)

/-- Environment of one AuthCli.refresh invocation: the clock, the
configuration flag, the Date.parse oracle, and the parsed reply each
network endpoint would return if called. -/
structure RefreshEnv where
  dateParse : String → Option Int
  now : Int
  autoSelect : Bool
  oauthRefreshResp : TokenResponse
  sessionRefreshResp : SessionHttp
  profilesResp : ProfilesHttp
  sessionCreateResp : SessionResponse

/-- Outcome of the AuthCli refresh command: the final store on normal
completion, or the error that terminated the command (process exit when no
OAuth tokens exist, or a propagated throw). -/
inductive CliOutcome where
  | ok (st : Store)
  | exitNoOAuth
  | oauthRefreshError (e : OAuthRefreshError)
  | profilesError (status : Nat)
  | selectError (e : String)
  | createError (e : SessionCreateError)
  deriving DecidableEq, Repr

/-- AuthCli.refresh (AuthCli.ts): loads the OAuth tokens (exit 1 when
absent), refreshes them, then, when a session file exists, attempts a
session refresh; when that returns null it falls back to fetching profiles
with the refreshed access token, re-resolving the profile selection, and
creating a new session only when a profile was selected. -/
def AuthCli.refresh (env : RefreshEnv) (st : Store) : CliOutcome :=
  match TokenStore.loadOAuthTokens st with
  | none => .exitNoOAuth
  | some oauth =>
    match OAuthClient.refreshToken env.now st oauth.refreshToken env.oauthRefreshResp with
    | .error e => .oauthRefreshError e
    | .ok (refreshedOAuth, st1) =>
      match TokenStore.loadSessionTokens st1 with
      | none => .ok st1
      | some session =>
        match SessionManager.refresh env.dateParse env.now session.sessionToken st1
            env.sessionRefreshResp with
        | (some _, st2) => .ok st2
        | (none, st2) =>
          match OAuthClient.getProfiles refreshedOAuth.accessToken st2 env.profilesResp with
          | .error status => .profilesError status
          | .ok (profiles, st3) =>
            match ProfileManager.select env.autoSelect env.now st3 profiles with
            | .error e => .selectError e
            | .ok (none, st4) => .ok st4
            | .ok (some selected, st4) =>
              match SessionManager.create env.dateParse env.now selected.uuid
                  refreshedOAuth.accessToken st4 env.sessionCreateResp with
              | .error e => .createError e
              | .ok (_, st5) => .ok st5

/-!
Claims and their theorems.
-/

/-- Claim C1: for every expiry instant e and current time now,
needsRefresh (OAuth Client) and isExpiring (Session Manager) return true
iff now ≥ e − 300, the same 300-second anticipation rule for both
credential kinds. -/
theorem needsRefresh_isExpiring_iff (now e : Int) :
    (OAuthClient.needsRefresh now e = true ↔ now ≥ e - 300) ∧
    (SessionManager.isExpiring now e = true ↔ now ≥ e - 300) ∧
    OAuthClient.needsRefresh now e = SessionManager.isExpiring now e := by
  refine ⟨?_, ?_, rfl⟩ <;>
    simp [OAuthClient.needsRefresh, SessionManager.isExpiring, REFRESH_BUFFER]

/-- Witness for claim C1 at concrete instants: 100 ≥ 400 − 300 makes both
sides fire, and the two predicates agree pointwise. -/
theorem needsRefresh_isExpiring_iff_witness :
    OAuthClient.needsRefresh 100 400 = true ∧
    SessionManager.isExpiring 700 400 = true ∧
    OAuthClient.needsRefresh 99 400 = SessionManager.isExpiring 99 400 :=
  ⟨(needsRefresh_isExpiring_iff 100 400).1.mpr (by decide),
   (needsRefresh_isExpiring_iff 700 400).2.1.mpr (by decide),
   (needsRefresh_isExpiring_iff 99 400).2.2⟩

/-- Claim C5 counterexample: an OAuth credential whose access token is the
empty string does not survive the save/load round trip — loadOAuthTokens
treats the falsy empty string as a missing token and returns none instead
of the saved record. -/
theorem oauth_roundtrip_counterexample :
    TokenStore.loadOAuthTokens (TokenStore.saveOAuthTokens store0 ⟨"", "r", 0, 0⟩) = none := by
  rfl

/-- Claim C5 (amended): session credentials always round-trip through the
store; OAuth credentials round-trip whenever their access and refresh
tokens are non-empty; loading either kind when the underlying file is
absent returns none, not an error. -/
theorem store_roundtrip (st : Store) (t : OAuthTokens) (s : SessionTokens) :
    (t.accessToken ≠ "" → t.refreshToken ≠ "" →
      TokenStore.loadOAuthTokens (TokenStore.saveOAuthTokens st t) = some t) ∧
    TokenStore.loadSessionTokens (TokenStore.saveSessionTokens st s) = some s ∧
    (st.oauthFile = none → TokenStore.loadOAuthTokens st = none) ∧
    (st.sessionFile = none → TokenStore.loadSessionTokens st = none) := by
  refine ⟨?_, rfl, ?_, ?_⟩
  · intro ha hr
    simp [TokenStore.saveOAuthTokens, TokenStore.loadOAuthTokens, ha, hr]
  · intro h
    simp [TokenStore.loadOAuthTokens, h]
  · intro h
    simp [TokenStore.loadSessionTokens, h]

/-- Witness for claim C5 (amended) at concrete records. -/
theorem store_roundtrip_witness :
    TokenStore.loadOAuthTokens (TokenStore.saveOAuthTokens store0 ⟨"a", "r", 100, 50⟩) =
      some ⟨"a", "r", 100, 50⟩ ∧
    TokenStore.loadSessionTokens (TokenStore.saveSessionTokens store0 ⟨"s", "i", "e", 9, 1⟩) =
      some ⟨"s", "i", "e", 9, 1⟩ ∧
    TokenStore.loadOAuthTokens store0 = none ∧
    TokenStore.loadSessionTokens store0 = none := by
  have h := store_roundtrip store0 ⟨"a", "r", 100, 50⟩ ⟨"s", "i", "e", 9, 1⟩
  exact ⟨h.1 (by decide) (by decide), h.2.1, h.2.2.1 rfl, h.2.2.2 rfl⟩

/-- Claim C6: SessionManager.refresh returns null without persisting on a
non-2xx response, on an unparseable body, and when any required field is
falsy; it persists and returns the built credential exactly when the
response is 2xx, parseable, and all three required fields are truthy. -/
theorem session_refresh_null_iff (dateParse : String → Option Int) (now : Int)
    (tok : String) (st : Store) (resp : SessionHttp) :
    (resp.ok = false → SessionManager.refresh dateParse now tok st resp = (none, st)) ∧
    (resp.body = .invalid → SessionManager.refresh dateParse now tok st resp = (none, st)) ∧
    (∀ data, resp.body = .parsed data →
      (truthy data.sessionToken && truthy data.identityToken && truthy data.expiresAt) = false →
      SessionManager.refresh dateParse now tok st resp = (none, st)) ∧
    (∀ data, resp.ok = true → resp.body = .parsed data →
      (truthy data.sessionToken && truthy data.identityToken && truthy data.expiresAt) = true →
      SessionManager.refresh dateParse now tok st resp =
        (some (SessionManager.tokensFrom dateParse now data),
         TokenStore.saveSessionTokens st (SessionManager.tokensFrom dateParse now data))) := by
  refine ⟨?_, ?_, ?_, ?_⟩
  · intro h
    simp [SessionManager.refresh, SessionManager.refreshResult, h]
  · intro h
    cases hok : resp.ok <;>
      simp [SessionManager.refresh, SessionManager.refreshResult, h, hok]
  · intro data hb hfields
    cases hok : resp.ok <;>
      simp [SessionManager.refresh, SessionManager.refreshResult, hb, hok, hfields]
  · intro data hok hb hfields
    simp [SessionManager.refresh, SessionManager.refreshResult, hb, hok, hfields]

/-- Witness for claim C6: a non-2xx reply yields null with the store
untouched; a full 2xx reply persists and returns the built credential. -/
theorem session_refresh_null_iff_witness :
    SessionManager.refresh (fun _ => none) 7 "tok" store0 ⟨false, 503, .invalid⟩ =
      (none, store0) ∧
    SessionManager.refresh (fun _ => none) 7 "tok" store0
        ⟨true, 200, .parsed { sessionToken := some "s", identityToken := some "i",
                              expiresAt := some "e" }⟩ =
      (some ⟨"s", "i", "e", 3607, 7⟩,
       TokenStore.saveSessionTokens store0 ⟨"s", "i", "e", 3607, 7⟩) := by
  constructor
  · exact (session_refresh_null_iff (fun _ => none) 7 "tok" store0 ⟨false, 503, .invalid⟩).1 rfl
  · have h := (session_refresh_null_iff (fun _ => none) 7 "tok" store0
      ⟨true, 200, .parsed { sessionToken := some "s", identityToken := some "i",
                            expiresAt := some "e" }⟩).2.2.2
      { sessionToken := some "s", identityToken := some "i", expiresAt := some "e" }
      rfl rfl (by decide)
    rw [h]
    decide

/-- Claim C7: when refreshToken succeeds, the returned credential carries
the prior refresh token if the response omitted one, carries the new one
if present, and is exactly what gets persisted. -/
theorem oauth_refresh_retains_prior (now : Int) (st : Store) (prior : String)
    (data : TokenResponse) (t : OAuthTokens) (st' : Store) :
    OAuthClient.refreshToken now st prior data = .ok (t, st') →
    (data.refresh_token = none → t.refreshToken = prior) ∧
    (∀ s, data.refresh_token = some s → t.refreshToken = s) ∧
    st' = TokenStore.saveOAuthTokens st t := by
  intro h
  unfold OAuthClient.refreshToken at h
  cases hres : OAuthClient.refreshTokenResult now prior data with
  | error e =>
    rw [hres] at h
    exact absurd h (by simp)
  | ok tokens =>
    rw [hres] at h
    simp only [Except.ok.injEq, Prod.mk.injEq] at h
    obtain ⟨ht, hst⟩ := h
    subst ht
    unfold OAuthClient.refreshTokenResult at hres
    split at hres
    · exact absurd hres (by simp)
    split at hres
    · exact absurd hres (by simp)
    simp only [Except.ok.injEq] at hres
    subst hres
    refine ⟨?_, ?_, hst.symm⟩
    · intro hn
      simp [OAuthClient.createTokens, hn]
    · intro s hs
      simp [OAuthClient.createTokens, hs]

/-- Witness for claim C7: a refresh response with an access token and no
refresh token keeps the prior refresh token, and the persisted store holds
exactly the returned credential. -/
theorem oauth_refresh_retains_prior_witness :
    (⟨"newacc", "oldref", 3600, 0⟩ : OAuthTokens).refreshToken = "oldref" ∧
    TokenStore.saveOAuthTokens store0 ⟨"newacc", "oldref", 3600, 0⟩ =
      TokenStore.saveOAuthTokens store0 ⟨"newacc", "oldref", 3600, 0⟩ := by
  have h := oauth_refresh_retains_prior 0 store0 "oldref"
    { access_token := some "newacc" } ⟨"newacc", "oldref", 3600, 0⟩
    (TokenStore.saveOAuthTokens store0 ⟨"newacc", "oldref", 3600, 0⟩) (by decide)
  exact ⟨h.1 rfl, rfl⟩

/-- Claim C8: every credential returned by SessionManager.create derives
its expiry epoch by parsing the server expiry string, and substitutes
now + 3600 when that string is unparseable, instead of failing. -/
theorem session_create_expiry (dateParse : String → Option Int) (now : Int)
    (uuid atok : String) (st : Store) (data : SessionResponse)
    (t : SessionTokens) (st' : Store) :
    SessionManager.create dateParse now uuid atok st data = .ok (t, st') →
    t.expiresEpoch = SessionManager.parseExpiry dateParse now t.expiresAt ∧
    (dateParse t.expiresAt = none → t.expiresEpoch = now + 3600) := by
  intro h
  unfold SessionManager.create at h
  cases hres : SessionManager.createResult dateParse now data with
  | error e =>
    rw [hres] at h
    exact absurd h (by simp)
  | ok tokens =>
    rw [hres] at h
    simp only [Except.ok.injEq, Prod.mk.injEq] at h
    obtain ⟨ht, hst⟩ := h
    subst ht
    unfold SessionManager.createResult at hres
    split at hres
    · exact absurd hres (by simp)
    split at hres
    · exact absurd hres (by simp)
    simp only [Except.ok.injEq] at hres
    subst hres
    constructor
    · rfl
    · intro hn
      simp only [SessionManager.tokensFrom] at hn
      simp [SessionManager.tokensFrom, SessionManager.parseExpiry, hn]

/-- Witness for claim C8: with a Date.parse oracle that rejects every
string, a created session gets expiry now + 3600. -/
theorem session_create_expiry_witness :
    (⟨"s", "i", "garbage", 3650, 50⟩ : SessionTokens).expiresEpoch =
      SessionManager.parseExpiry (fun _ => none) 50 "garbage" ∧
    (⟨"s", "i", "garbage", 3650, 50⟩ : SessionTokens).expiresEpoch = 50 + 3600 := by
  have h := session_create_expiry (fun _ => none) 50 "u" "a" store0
    { sessionToken := some "s", identityToken := some "i", expiresAt := some "garbage" }
    ⟨"s", "i", "garbage", 3650, 50⟩
    (TokenStore.saveSessionTokens store0 ⟨"s", "i", "garbage", 3650, 50⟩) (by decide)
  exact ⟨h.1, h.2 rfl⟩

/-- Claim C10: whenever SessionManager.refresh returns null — non-2xx
status, unparseable body, or missing required fields — it performs no
store write: the resulting store is exactly the one passed in. -/
theorem session_refresh_no_write (dateParse : String → Option Int) (now : Int)
    (tok : String) (st : Store) (resp : SessionHttp) :
    (SessionManager.refresh dateParse now tok st resp).1 = none →
    (SessionManager.refresh dateParse now tok st resp).2 = st := by
  unfold SessionManager.refresh
  cases SessionManager.refreshResult dateParse now resp <;> simp

/-- Witness for claim C10: a failed refresh against an HTTP error leaves
the store unchanged. -/
theorem session_refresh_no_write_witness :
    (SessionManager.refresh (fun _ => none) 0 "tok" store0 ⟨false, 500, .invalid⟩).2 = store0 :=
  session_refresh_no_write (fun _ => none) 0 "tok" store0 ⟨false, 500, .invalid⟩ (by rfl)

/-- Claim C2 counterexample: with a grant window of 10 seconds and a poll
interval of 5 seconds, a reply script of one authorization_pending followed
by one token issuance makes pollForToken return a credential at elapsed
poll time 10 — at the very moment the validity window closes, because the
loop guard reads elapsed before the sleep that precedes the final poll.
The trailing conjunct records that the issuance instant is at-or-after the
window bound. -/
theorem pollForToken_issues_at_close :
    OAuthClient.pollForToken store0 0 ⟨"device", 10, 5⟩
      [{ error := some "authorization_pending" },
       { access_token := some "atok", refresh_token := some "rtok" }] =
      PollOutcome.issued ⟨"atok", "rtok", 3600, 0⟩ 10
        (TokenStore.saveOAuthTokens store0 ⟨"atok", "rtok", 3600, 0⟩) ∧
    (10 : Nat) ≥ 10 := by
  constructor
  · decide
  · decide

/-- Unfolding of the poll loop on an exhausted reply script. -/
theorem pollLoop_nil (st : Store) (now : Int) (expiresIn elapsed interval : Nat) :
    OAuthClient.pollLoop st now expiresIn [] elapsed interval =
      if elapsed < expiresIn then .outOfReplies elapsed else .expiredGrant elapsed := by
  rw [OAuthClient.pollLoop]

/-- Unfolding of the poll loop on one more reply. -/
theorem pollLoop_cons (st : Store) (now : Int) (expiresIn elapsed interval : Nat)
    (data : TokenResponse) (rest : List TokenResponse) :
    OAuthClient.pollLoop st now expiresIn (data :: rest) elapsed interval =
      if elapsed < expiresIn then
        (if truthy data.error then
          (if data.error == some "authorization_pending" then
            OAuthClient.pollLoop st now expiresIn rest (elapsed + interval) interval
          else if data.error == some "slow_down" then
            OAuthClient.pollLoop st now expiresIn rest (elapsed + interval) (interval + 5)
          else if data.error == some "expired_token" then .deviceCodeExpired
          else if data.error == some "access_denied" then .accessDenied
          else .tokenError (data.error.getD ""))
        else if truthy data.access_token && truthy data.refresh_token then
          .issued (OAuthClient.createTokens now data) (elapsed + interval)
            (TokenStore.saveOAuthTokens st (OAuthClient.createTokens now data))
        else OAuthClient.pollLoop st now expiresIn rest (elapsed + interval) interval)
      else .expiredGrant elapsed := by
  rw [OAuthClient.pollLoop]

/-- Whenever the poll loop ends with the expired-grant failure, the elapsed
poll time has reached the validity window. -/
theorem pollLoop_expiredGrant_ge (replies : List TokenResponse) :
    ∀ (st : Store) (now : Int) (expiresIn elapsed interval e : Nat),
      OAuthClient.pollLoop st now expiresIn replies elapsed interval = .expiredGrant e →
      expiresIn ≤ e := by
  induction replies with
  | nil =>
    intro st now expiresIn elapsed interval e h
    rw [pollLoop_nil] at h
    split at h
    · exact absurd h (by simp)
    · simp only [PollOutcome.expiredGrant.injEq] at h
      omega
  | cons data rest ih =>
    intro st now expiresIn elapsed interval e h
    rw [pollLoop_cons] at h
    split at h
    · split at h
      · split at h
        · exact ih _ _ _ _ _ _ h
        · split at h
          · exact ih _ _ _ _ _ _ h
          · split at h
            · exact absurd h (by simp)
            · split at h
              · exact absurd h (by simp)
              · exact absurd h (by simp)
      · split at h
        · exact absurd h (by simp)
        · exact ih _ _ _ _ _ _ h
    · simp only [PollOutcome.expiredGrant.injEq] at h
      omega

/-- Whenever the poll loop issues a credential, the elapsed poll time is
below the window plus the current interval plus 5 seconds per consumed
reply (the slow_down growth); the poll that issued it was entered while
elapsed was still below the window. -/
theorem pollLoop_issued_lt (replies : List TokenResponse) :
    ∀ (st : Store) (now : Int) (expiresIn elapsed interval : Nat)
      (t : OAuthTokens) (e : Nat) (st' : Store),
      OAuthClient.pollLoop st now expiresIn replies elapsed interval = .issued t e st' →
      e < expiresIn + interval + 5 * replies.length := by
  induction replies with
  | nil =>
    intro st now expiresIn elapsed interval t e st' h
    rw [pollLoop_nil] at h
    split at h
    · exact absurd h (by simp)
    · exact absurd h (by simp)
  | cons data rest ih =>
    intro st now expiresIn elapsed interval t e st' h
    rw [pollLoop_cons] at h
    split at h
    · split at h
      · split at h
        · have := ih _ _ _ _ _ _ _ _ h
          simp only [List.length_cons]
          omega
        · split at h
          · have := ih _ _ _ _ _ _ _ _ h
            simp only [List.length_cons]
            omega
          · split at h
            · exact absurd h (by simp)
            · split at h
              · exact absurd h (by simp)
              · exact absurd h (by simp)
      · split at h
        · simp only [PollOutcome.issued.injEq] at h
          obtain ⟨-, he, -⟩ := h
          simp only [List.length_cons]
          omega
        · have := ih _ _ _ _ _ _ _ _ h
          simp only [List.length_cons]
          omega
    · exact absurd h (by simp)

/-- Claim C2 (amended): pollForToken enters each poll only while the
elapsed poll time is below the validity window, so the expired-grant
failure occurs at the first elapsed time at or beyond the window; but
because elapsed is advanced by the sleep interval before the poll, a
credential can still be issued at or after the instant the window closes —
issuance elapsed time is only bounded by the window plus the current
interval (at most the initial interval plus 5 seconds per poll). -/
theorem pollForToken_window (st : Store) (now : Int) (state : DeviceCodeState)
    (replies : List TokenResponse) :
    (∀ e, OAuthClient.pollForToken st now state replies = .expiredGrant e →
      state.expiresIn ≤ e) ∧
    (∀ t e st', OAuthClient.pollForToken st now state replies = .issued t e st' →
      e < state.expiresIn + state.interval + 5 * replies.length) := by
  constructor
  · intro e h
    exact pollLoop_expiredGrant_ge replies st now state.expiresIn 0 state.interval e h
  · intro t e st' h
    exact pollLoop_issued_lt replies st now state.expiresIn 0 state.interval t e st' h

/-- Witness for claim C2 (amended): a script of two pending replies
against a 7-second window fails with the expired grant at elapsed 10 ≥ 7,
and a one-reply issuance against a 5-second window with interval 3 lands
at elapsed 3 < 5 + 3 + 5. -/
theorem pollForToken_window_witness :
    (7 : Nat) ≤ 10 ∧ (3 : Nat) < 5 + 3 + 5 * 1 := by
  constructor
  · exact (pollForToken_window store0 0 ⟨"device", 7, 5⟩
      [{ error := some "authorization_pending" },
       { error := some "authorization_pending" }]).1 10 (by decide)
  · exact (pollForToken_window store0 0 ⟨"device", 5, 3⟩
      [{ access_token := some "a", refresh_token := some "r" }]).2
      ⟨"a", "r", 3600, 0⟩ 3
      (TokenStore.saveOAuthTokens store0 ⟨"a", "r", 3600, 0⟩) (by decide)

/-- Claim C3 counterexample: with auto-selection enabled, no saved
selection and an empty profile set, select does not return null — the
source reads `.uuid` from `profiles.profiles[0]`, which is undefined, and
the call fails with a TypeError. -/
theorem select_empty_counterexample :
    ProfileManager.select true 0 store0 ⟨"owner", []⟩ =
      Except.error "TypeError: cannot read properties of undefined" := by
  rfl

/-- Claim C3 (amended): select resolves in strict priority order — a saved
selection whose identifier appears in the set is returned as-is; otherwise
a singleton set is auto-selected unconditionally and persisted; otherwise
with auto-selection enabled the first profile of a non-empty set is
selected and persisted, while an empty set makes select fail with a
TypeError; otherwise select returns null without writing. -/
theorem select_priority (autoSelect : Bool) (now : Int) (st : Store)
    (profiles : ProfilesResponse) :
    (∀ saved, TokenStore.loadSelectedProfile st = some saved →
      profiles.profiles.any (fun p => p.uuid == saved.uuid) = true →
      ProfileManager.select autoSelect now st profiles = .ok (some saved, st)) ∧
    ((∀ saved, TokenStore.loadSelectedProfile st = some saved →
        profiles.profiles.any (fun p => p.uuid == saved.uuid) = false) →
      ((∀ p, profiles.profiles = [p] →
        ProfileManager.select autoSelect now st profiles =
          .ok (some (ProfileManager.build now p.uuid p.username),
               TokenStore.saveSelectedProfile st (ProfileManager.build now p.uuid p.username))) ∧
       (∀ p q ps, profiles.profiles = p :: q :: ps → autoSelect = true →
        ProfileManager.select autoSelect now st profiles =
          .ok (some (ProfileManager.build now p.uuid p.username),
               TokenStore.saveSelectedProfile st (ProfileManager.build now p.uuid p.username))) ∧
       (profiles.profiles = [] → autoSelect = true →
        ProfileManager.select autoSelect now st profiles =
          .error "TypeError: cannot read properties of undefined") ∧
       (profiles.profiles.length ≠ 1 → autoSelect = false →
        ProfileManager.select autoSelect now st profiles = .ok (none, st)))) := by
  constructor
  · intro saved hsaved hany
    simp [ProfileManager.select, hsaved, hany]
  · intro hnone
    have hsel : ProfileManager.select autoSelect now st profiles =
        ProfileManager.selectUnsaved autoSelect now st profiles := by
      unfold ProfileManager.select
      cases hsaved : TokenStore.loadSelectedProfile st with
      | none => rfl
      | some saved => simp [hnone saved hsaved]
    refine ⟨?_, ?_, ?_, ?_⟩
    · intro p hp
      rw [hsel]
      unfold ProfileManager.selectUnsaved
      rw [hp]
    · intro p q ps hp hauto
      rw [hsel]
      unfold ProfileManager.selectUnsaved
      rw [hp, hauto]
      rfl
    · intro hp hauto
      rw [hsel]
      unfold ProfileManager.selectUnsaved
      rw [hp, hauto]
      rfl
    · intro hlen hauto
      rw [hsel]
      unfold ProfileManager.selectUnsaved
      cases hp : profiles.profiles with
      | nil =>
        rw [hauto]
        rfl
      | cons p rest =>
        cases rest with
        | nil => exact absurd (by rw [hp]; rfl) hlen
        | cons q ps =>
          rw [hauto]
          rfl

/-- Witness for claim C3 (amended): a singleton set is auto-selected and
persisted even with auto-selection disabled, and a two-profile set with
auto-selection disabled defers with null and no write. -/
theorem select_priority_witness :
    ProfileManager.select false 7 store0 ⟨"o", [⟨"u1", "n1"⟩]⟩ =
      .ok (some ⟨"u1", "n1", 7⟩, TokenStore.saveSelectedProfile store0 ⟨"u1", "n1", 7⟩) ∧
    ProfileManager.select false 7 store0 ⟨"o", [⟨"u1", "n1"⟩, ⟨"u2", "n2"⟩]⟩ =
      .ok (none, store0) := by
  constructor
  · exact ((select_priority false 7 store0 ⟨"o", [⟨"u1", "n1"⟩]⟩).2
      (by intro saved h; simp [TokenStore.loadSelectedProfile, store0] at h)).1
      ⟨"u1", "n1"⟩ rfl
  · exact ((select_priority false 7 store0 ⟨"o", [⟨"u1", "n1"⟩, ⟨"u2", "n2"⟩]⟩).2
      (by intro saved h; simp [TokenStore.loadSelectedProfile, store0] at h)).2.2.2
      (by decide) rfl

/-- Claim C9: setSelection with an all-digit selector whose value lies
outside 1..count fails with the invalid-index error, with a non-numeric
selector matching no profile uuid fails with the not-found error, and
every successful resolution returns a store in which the selected profile
has been persisted. -/
theorem setSelection_errors (now : Int) (st : Store) (profiles : ProfilesResponse)
    (selector : String) :
    (isDigits selector = true →
      (digitsToNat selector = 0 ∨ digitsToNat selector > profiles.profiles.length) →
      ProfileManager.setSelection now st profiles selector =
        .error (.invalidIndex profiles.profiles.length)) ∧
    (isDigits selector = false →
      (∀ p ∈ profiles.profiles, p.uuid ≠ selector) →
      ProfileManager.setSelection now st profiles selector =
        .error (.notFound selector)) ∧
    (∀ sel st', ProfileManager.setSelection now st profiles selector = .ok (sel, st') →
      st' = TokenStore.saveSelectedProfile st sel) := by
  refine ⟨?_, ?_, ?_⟩
  · intro hd hn
    unfold ProfileManager.setSelection ProfileManager.resolve
    simp only [hd, if_true, ite_true]
    generalize hgen : digitsToNat selector = n at hn
    rcases hn with hn | hn <;> rw [if_pos (by omega)]
  · intro hd hnone
    unfold ProfileManager.setSelection ProfileManager.resolve
    simp only [hd, Bool.false_eq_true, if_false, ite_false]
    have hfind : profiles.profiles.find? (fun p => p.uuid == selector) = none := by
      rw [List.find?_eq_none]
      intro p hp
      simp [hnone p hp]
    rw [hfind]
  · intro sel st' h
    unfold ProfileManager.setSelection at h
    cases hres : ProfileManager.resolve now profiles selector with
    | error e =>
      rw [hres] at h
      exact absurd h (by simp)
    | ok s =>
      rw [hres] at h
      simp only [Except.ok.injEq, Prod.mk.injEq] at h
      obtain ⟨h1, h2⟩ := h
      rw [← h2, h1]

/-- Witness for claim C9 on a two-profile set: ordinal 0 and ordinal
count + 1 hit the invalid-index error, an unknown non-numeric identifier
hits the not-found error, and a successful ordinal selection persists. -/
theorem setSelection_errors_witness :
    ProfileManager.setSelection 0 store0 ⟨"o", [⟨"aaa", "n1"⟩, ⟨"bbb", "n2"⟩]⟩ "0" =
      .error (.invalidIndex 2) ∧
    ProfileManager.setSelection 0 store0 ⟨"o", [⟨"aaa", "n1"⟩, ⟨"bbb", "n2"⟩]⟩ "3" =
      .error (.invalidIndex 2) ∧
    ProfileManager.setSelection 0 store0 ⟨"o", [⟨"aaa", "n1"⟩, ⟨"bbb", "n2"⟩]⟩ "ccc" =
      .error (.notFound "ccc") ∧
    TokenStore.saveSelectedProfile store0 ⟨"aaa", "n1", 0⟩ =
      TokenStore.saveSelectedProfile store0 ⟨"aaa", "n1", 0⟩ := by
  refine ⟨?_, ?_, ?_, ?_⟩
  · exact (setSelection_errors 0 store0 ⟨"o", [⟨"aaa", "n1"⟩, ⟨"bbb", "n2"⟩]⟩ "0").1
      (by decide) (by decide)
  · exact (setSelection_errors 0 store0 ⟨"o", [⟨"aaa", "n1"⟩, ⟨"bbb", "n2"⟩]⟩ "3").1
      (by decide) (by decide)
  · exact (setSelection_errors 0 store0 ⟨"o", [⟨"aaa", "n1"⟩, ⟨"bbb", "n2"⟩]⟩ "ccc").2.1
      (by decide) (by decide)
  · exact (setSelection_errors 0 store0 ⟨"o", [⟨"aaa", "n1"⟩, ⟨"bbb", "n2"⟩]⟩ "1").2.2
      ⟨"aaa", "n1", 0⟩ (TokenStore.saveSelectedProfile store0 ⟨"aaa", "n1", 0⟩) (by decide)

/-- Refresh environment exhibiting the deferred-selection fallback: OAuth
refresh succeeds, session refresh gets HTTP 401, the profile fetch returns
two profiles, and auto-selection is disabled. -/
def envC4 : RefreshEnv :=
  { dateParse := fun _ => none,
    now := 500,
    autoSelect := false,
    oauthRefreshResp := { access_token := some "newacc" },
    sessionRefreshResp := ⟨false, 401, .invalid⟩,
    profilesResp := ⟨true, 200, ⟨"own", [⟨"u1", "n1"⟩, ⟨"u2", "n2"⟩]⟩⟩,
    sessionCreateResp := { sessionToken := some "ns", identityToken := some "ni",
                           expiresAt := some "ne" } }

/-- Store before the envC4 run: OAuth tokens and a stale session on disk,
no cached profiles, no saved selection. -/
def stC4 : Store :=
  ⟨some ⟨"acc", "ref", 2000, 0⟩, some ⟨"oldsess", "oldid", "oldexp", 1000, 0⟩, none, none⟩

/-- Claim C4 counterexample: in the envC4 run the session refresh returns
null, yet no session is created — the command completes normally with the
selection still unset and the stored session credential exactly the stale
pre-call record, because select deferred with null and the create step is
guarded by the selection. -/
theorem refresh_fallback_counterexample :
    AuthCli.refresh envC4 stC4 =
      CliOutcome.ok ⟨some ⟨"newacc", "ref", 4100, 500⟩,
        some ⟨"oldsess", "oldid", "oldexp", 1000, 0⟩,
        some ⟨"own", [⟨"u1", "n1"⟩, ⟨"u2", "n2"⟩]⟩, none⟩ ∧
    stC4.sessionFile = some ⟨"oldsess", "oldid", "oldexp", 1000, 0⟩ := by
  constructor <;> rfl

/-- ProfileManager.selectUnsaved never touches the session file. -/
theorem selectUnsaved_sessionFile (autoSelect : Bool) (now : Int) (st : Store)
    (profiles : ProfilesResponse) (o : Option SelectedProfile) (st' : Store) :
    ProfileManager.selectUnsaved autoSelect now st profiles = .ok (o, st') →
    st'.sessionFile = st.sessionFile := by
  intro h
  unfold ProfileManager.selectUnsaved at h
  split at h
  · simp only [Except.ok.injEq, Prod.mk.injEq] at h
    obtain ⟨-, h2⟩ := h
    rw [← h2]
    rfl
  · split at h
    · split at h
      · exact absurd h (by simp)
      · simp only [Except.ok.injEq, Prod.mk.injEq] at h
        obtain ⟨-, h2⟩ := h
        rw [← h2]
        rfl
    · simp only [Except.ok.injEq, Prod.mk.injEq] at h
      obtain ⟨-, h2⟩ := h
      rw [← h2]

/-- ProfileManager.select never touches the session file. -/
theorem select_sessionFile (autoSelect : Bool) (now : Int) (st : Store)
    (profiles : ProfilesResponse) (o : Option SelectedProfile) (st' : Store) :
    ProfileManager.select autoSelect now st profiles = .ok (o, st') →
    st'.sessionFile = st.sessionFile := by
  intro h
  unfold ProfileManager.select at h
  split at h
  · split at h
    · simp only [Except.ok.injEq, Prod.mk.injEq] at h
      obtain ⟨-, h2⟩ := h
      rw [← h2]
    · exact selectUnsaved_sessionFile autoSelect now st profiles o st' h
  · exact selectUnsaved_sessionFile autoSelect now st profiles o st' h

/-- Claim C4 (amended): whenever the refresh command's session refresh
returns null (and an OAuth credential and a session file exist, the OAuth
refresh succeeded, and the profile endpoint is reachable), the command
always fetches profiles and re-resolves the profile selection; a new
session is created and persisted exactly when the selection resolves to a
profile, and when selection is deferred with null no session is created —
the stored session credential is exactly the one from before the call. -/
theorem refresh_fallback (env : RefreshEnv) (st : Store)
    (oauth newOAuth : OAuthTokens) (sess : SessionTokens) :
    TokenStore.loadOAuthTokens st = some oauth →
    OAuthClient.refreshTokenResult env.now oauth.refreshToken env.oauthRefreshResp =
      .ok newOAuth →
    st.sessionFile = some sess →
    SessionManager.refreshResult env.dateParse env.now env.sessionRefreshResp = none →
    env.profilesResp.ok = true →
    ((∀ sel st4 tokens,
        ProfileManager.select env.autoSelect env.now
          (TokenStore.saveProfiles (TokenStore.saveOAuthTokens st newOAuth)
            env.profilesResp.body) env.profilesResp.body = .ok (some sel, st4) →
        SessionManager.createResult env.dateParse env.now env.sessionCreateResp = .ok tokens →
        AuthCli.refresh env st = .ok (TokenStore.saveSessionTokens st4 tokens) ∧
        (TokenStore.saveSessionTokens st4 tokens).sessionFile = some tokens) ∧
     (∀ st4,
        ProfileManager.select env.autoSelect env.now
          (TokenStore.saveProfiles (TokenStore.saveOAuthTokens st newOAuth)
            env.profilesResp.body) env.profilesResp.body = .ok (none, st4) →
        AuthCli.refresh env st = .ok st4 ∧ st4.sessionFile = st.sessionFile)) := by
  intro h1 h2 h3 h4 h5
  have hload : TokenStore.loadSessionTokens (TokenStore.saveOAuthTokens st newOAuth) =
      some sess := by
    simp only [TokenStore.loadSessionTokens, TokenStore.saveOAuthTokens]
    exact h3
  have hred : AuthCli.refresh env st =
      (match ProfileManager.select env.autoSelect env.now
          (TokenStore.saveProfiles (TokenStore.saveOAuthTokens st newOAuth)
            env.profilesResp.body) env.profilesResp.body with
       | .error e => .selectError e
       | .ok (none, st4) => .ok st4
       | .ok (some selected, st4) =>
         match SessionManager.create env.dateParse env.now selected.uuid
             newOAuth.accessToken st4 env.sessionCreateResp with
         | .error e => .createError e
         | .ok (_, st5) => .ok st5) := by
    simp only [AuthCli.refresh, h1, OAuthClient.refreshToken, h2, hload,
      SessionManager.refresh, h4, OAuthClient.getProfiles, h5, Bool.not_true,
      Bool.false_eq_true, if_false, ite_false]
  constructor
  · intro sel st4 tokens hsel hcr
    constructor
    · rw [hred]
      simp only [hsel, SessionManager.create, hcr]
    · rfl
  · intro st4 hsel
    constructor
    · rw [hred]
      simp only [hsel]
    · have hs := select_sessionFile env.autoSelect env.now
        (TokenStore.saveProfiles (TokenStore.saveOAuthTokens st newOAuth)
          env.profilesResp.body) env.profilesResp.body none st4 hsel
      rw [hs]
      rfl

/-- Refresh environment exhibiting the successful fallback: OAuth refresh
succeeds, session refresh gets HTTP 500, the profile fetch returns a
single profile, and the session creation reply is complete. -/
def envW : RefreshEnv :=
  { dateParse := fun _ => none,
    now := 100,
    autoSelect := false,
    oauthRefreshResp := { access_token := some "na" },
    sessionRefreshResp := ⟨false, 500, .invalid⟩,
    profilesResp := ⟨true, 200, ⟨"own", [⟨"u1", "n1"⟩]⟩⟩,
    sessionCreateResp := { sessionToken := some "ns", identityToken := some "ni",
                           expiresAt := some "ne" } }

/-- Store before the envW run: OAuth tokens and a stale session on disk,
no cached profiles, no saved selection. -/
def stW : Store :=
  ⟨some ⟨"acc", "ref", 2000, 0⟩, some ⟨"os", "oi", "oe", 1000, 0⟩, none, none⟩

/-- Store after the envW fallback has fetched profiles and auto-selected
the single profile. -/
def st4W : Store :=
  TokenStore.saveSelectedProfile
    (TokenStore.saveProfiles (TokenStore.saveOAuthTokens stW ⟨"na", "ref", 3700, 100⟩)
      ⟨"own", [⟨"u1", "n1"⟩]⟩)
    ⟨"u1", "n1", 100⟩

/-- Witness for claim C4 (amended): in the envW run the deferred session
refresh falls back to a full fetch, selection and creation, and the final
store holds the freshly created session credential. -/
theorem refresh_fallback_witness :
    AuthCli.refresh envW stW =
      .ok (TokenStore.saveSessionTokens st4W ⟨"ns", "ni", "ne", 3700, 100⟩) ∧
    (TokenStore.saveSessionTokens st4W ⟨"ns", "ni", "ne", 3700, 100⟩).sessionFile =
      some ⟨"ns", "ni", "ne", 3700, 100⟩ :=
  (refresh_fallback envW stW ⟨"acc", "ref", 2000, 0⟩ ⟨"na", "ref", 3700, 100⟩
      ⟨"os", "oi", "oe", 1000, 0⟩ rfl (by decide) rfl (by decide) rfl).1
    ⟨"u1", "n1", 100⟩ st4W ⟨"ns", "ni", "ne", 3700, 100⟩ (by decide) (by decide)
